import Mathlib

/-! Verification of the two serverless handlers of this repository: the image
classification handler (week-9/homework/lambda_function.py) and the churn
prediction handler (week-9/workshop/lambda-sklearn/lambda_function.py).
Python floats are embedded exactly as rationals; the external collaborators
(network fetch, PIL image decoding, the ONNX runtime session, the pickled
sklearn pipeline, Python float formatting) are parameters of the embedding or
are modelled from the spec where noted. -/

/-- A Python value as the handlers use them: None, strings, integers,
booleans, floats (embedded as rationals), lists and dicts (association lists
keyed by strings, keys unique in every value the handlers build). -/
inductive PyVal where
  | none : PyVal
  | str : String → PyVal
  | int : Int → PyVal
  | bool : Bool → PyVal
  | float : ℚ → PyVal
  | list : List PyVal → PyVal
  | dict : List (String × PyVal) → PyVal

/-- Python truthiness of a value, bool(v), as the source uses it in
`if not url`: None, empty strings, zero numbers, False and empty containers
are falsy, everything else is truthy. -/
def PyVal.truthy : PyVal → Bool
  | .none => false
  | .str s => !(s == (""))
  | .int n => !(n == 0)
  | .bool b => b
  | .float q => !(q == 0)
  | .list l => !l.isEmpty
  | .dict d => !d.isEmpty

namespace Homework

/-- A decoded RGB raster image: pix y x c is the integer value in [0, 255] of
channel c (0 = R, 1 = G, 2 = B) at row y, column x. This stands for a
PIL.Image.Image already converted to RGB mode, as download_image returns. -/
structure PILImage where
  width : ℕ
  height : ℕ
  pix : ℕ → ℕ → ℕ → ℕ

/-- A numpy ndarray over exact rationals: a shape list together with a total
entry function on index lists (entries at out-of-shape indices are irrelevant
to the claims and simply defined everywhere). -/
structure NDArray where
  shape : List ℕ
  entry : List ℕ → ℚ

/-- MODEL_PATH from week-9/homework/lambda_function.py. -/
def MODEL_PATH : String := "hair_classifier_empty.onnx"

/-- IMAGENET_MEAN from week-9/homework/lambda_function.py. -/
def IMAGENET_MEAN : List ℚ := [0.485, 0.456, 0.406]

/-- IMAGENET_STD from week-9/homework/lambda_function.py. -/
def IMAGENET_STD : List ℚ := [0.229, 0.224, 0.225]

/-- TARGET_SIZE from week-9/homework/lambda_function.py, (width, height). -/
def TARGET_SIZE : ℕ × ℕ := (200, 200)

/-- Modelled from the spec: img.resize(target_size, Image.NEAREST) is PIL
library code, absent from src/. It resizes to width tw and height th by
nearest-neighbor sampling with no aspect-ratio preservation: each output pixel
takes the value of the source pixel whose cell contains the output pixel's
center, floor((i + 1/2) * src / dst) computed in integer arithmetic. -/
def PILImage.resize (img : PILImage) (tw th : ℕ) : PILImage :=
  ⟨tw, th, fun y x c =>
    img.pix ((2 * y + 1) * img.height / (2 * th)) ((2 * x + 1) * img.width / (2 * tw)) c⟩

/-- The step arr = np.array(img).astype(np.float32) / 255.0 of prepare_image:
an HWC array of shape (height, width, 3) with values scaled into [0, 1]. -/
def PILImage.toArray (img : PILImage) : NDArray :=
  ⟨[img.height, img.width, 3],
   fun idx => (img.pix (idx.getD 0 0) (idx.getD 1 0) (idx.getD 2 0) : ℚ) / 255⟩

/-- The step arr = np.transpose(arr, (2, 0, 1)) of prepare_image: HWC to CHW. -/
def NDArray.transpose201 (a : NDArray) : NDArray :=
  ⟨[a.shape.getD 2 0, a.shape.getD 0 0, a.shape.getD 1 0],
   fun idx => a.entry [idx.getD 1 0, idx.getD 2 0, idx.getD 0 0]⟩

/-- The step arr = (arr - IMAGENET_MEAN[:, None, None]) / IMAGENET_STD[:, None, None]
of prepare_image: per-channel normalization broadcast over axis 0 of a CHW array. -/
def NDArray.normalizeCHW (a : NDArray) : NDArray :=
  ⟨a.shape,
   fun idx =>
     (a.entry idx - IMAGENET_MEAN.getD (idx.getD 0 0) 0) / IMAGENET_STD.getD (idx.getD 0 0) 0⟩

/-- The step np.expand_dims(arr, axis=0) of prepare_image: a leading batch
dimension of size 1. -/
def NDArray.expandDims0 (a : NDArray) : NDArray :=
  ⟨1 :: a.shape, fun idx => a.entry idx.tail⟩

/-- The function prepare_image of week-9/homework/lambda_function.py: resize to
target_size with nearest-neighbor, scale to [0, 1] float, transpose HWC to CHW,
ImageNet-normalize per channel, add the batch dimension. -/
def prepare_image (img : PILImage) (target_size : ℕ × ℕ) : NDArray :=
  ((((img.resize target_size.1 target_size.2).toArray).transpose201).normalizeCHW).expandDims0

/-- The external collaborators of the image handler, all outside this
repository: fetch is download_image (urllib fetch plus PIL decode to RGB) as a
function from the url value to the decoded image; run_model is the loaded ONNX
session's run on the input tensor followed by .squeeze() and float();
format_float is Python float formatting inside json.dumps. -/
structure ImgEnv where
  fetch : PyVal → PILImage
  run_model : NDArray → ℚ
  format_float : ℚ → String

/-- Execution events of the image handler, used to state in which order the
side-effecting steps of the source happen. -/
inductive Ev where
  | loadModel (path : String)
  | fetchUrl
  | decode
  | resize
  | toFloat
  | transpose
  | normalize
  | batch
  | run
deriving DecidableEq

/-- The events of predict from week-9/homework/lambda_function.py in the order
the source performs them: the ONNX session is constructed (the model load) on
the first line of predict, before the image is downloaded (fetched and
decoded) and preprocessed, and the session is run last. -/
def predict_events : List Ev :=
  [Ev.loadModel MODEL_PATH, Ev.fetchUrl, Ev.decode, Ev.resize, Ev.toFloat,
   Ev.transpose, Ev.normalize, Ev.batch, Ev.run]

/-- The function predict of week-9/homework/lambda_function.py: construct the
session from MODEL_PATH, download the image, preprocess it, run the model on
the tensor; returns the scalar prediction together with the trace of events. -/
def predict (env : ImgEnv) (url : PyVal) : ℚ × List Ev :=
  (env.run_model (prepare_image (env.fetch url) TARGET_SIZE), predict_events)

/-- The expression url = event.get("url") if isinstance(event, dict) else None
of lambda_handler. -/
def eventUrl (event : PyVal) : PyVal :=
  match event with
  | PyVal.dict d => (d.lookup ("url")).getD PyVal.none
  | _ => PyVal.none

/-- The function lambda_handler of week-9/homework/lambda_function.py,
returning the response value together with the trace of model and
preprocessing events of the invocation (empty on the error path, where
predict is never called). -/
def lambda_handler (env : ImgEnv) (event : PyVal) : PyVal × List Ev :=
  let url := eventUrl event
  if url.truthy then
    let pr := predict env url
    (PyVal.dict [(("statusCode"), PyVal.int 200),
                 (("body"), PyVal.str (("\x7b\"prediction\": ") ++ env.format_float pr.1 ++ ("\x7d")))],
     pr.2)
  else
    (PyVal.dict [(("statusCode"), PyVal.int 400),
                 (("body"), PyVal.str ("\x7b\"error\": \"url is required\"\x7d"))],
     [])

/-- A concrete environment used by witnesses: a 1 by 1 black image at every
url, a model that always outputs 0. -/
def env0 : ImgEnv :=
  ⟨fun _ => ⟨1, 1, fun _ _ _ => 0⟩, fun _ => 0, fun _ => ("0.0")⟩

/-- A second concrete environment, differing from env0 in its float
formatting, with the same fetched content and the same model. -/
def env1 : ImgEnv :=
  ⟨fun _ => ⟨1, 1, fun _ _ _ => 0⟩, fun _ => 0, fun _ => ("0")⟩

end Homework

namespace Sklearn

/-- The pickled sklearn pipeline of week-9/workshop/lambda-sklearn, an opaque
external artifact loaded from model.bin at module initialization:
predict_proba_batch applied to a batch of records returns one row of class
probabilities per record (two columns for this binary classifier). -/
structure Pipeline where
  predict_proba_batch : List PyVal → List (List ℚ)

/-- Modelled from the spec: the pipeline's probability-prediction operation is
sklearn library code, absent from src/. The source calls it directly on the
single customer mapping, pipeline.predict_proba(customer), and the pipeline's
DictVectorizer accepts either a single mapping, treated as a one-row batch, or
an iterable of mappings as the batch itself. -/
def Pipeline.predict_proba (p : Pipeline) (x : PyVal) : List (List ℚ) :=
  match x with
  | PyVal.list xs => p.predict_proba_batch xs
  | v => p.predict_proba_batch [v]

/-- The function predict_single of week-9/workshop/lambda-sklearn/lambda_function.py:
result = pipeline.predict_proba(customer)[0, 1], converted by float() to a
scalar. The numpy index [0, 1] selects row 0, column 1; an out-of-range index
(impossible for a binary classifier on a nonempty batch) is given the
default 0 here. -/
def predict_single (p : Pipeline) (customer : PyVal) : ℚ :=
  ((p.predict_proba customer).getD 0 []).getD 1 0

/-- A Python exception as the churn handler can raise one: a KeyError from a
failed dict subscript, a TypeError from subscripting a non-dict. -/
inductive PyErr where
  | keyError (k : String)
  | typeError
deriving DecidableEq

/-- The Python subscript event["customer"]: the value when the key is present,
a KeyError when the event is a dict without the key, a TypeError when the
event is not a dict. -/
def getItem (v : PyVal) (k : String) : Except PyErr PyVal :=
  match v with
  | PyVal.dict d =>
    match d.lookup k with
    | some x => Except.ok x
    | Option.none => Except.error (PyErr.keyError k)
  | _ => Except.error PyErr.typeError

/-- The function lambda_handler of week-9/workshop/lambda-sklearn/lambda_function.py;
the unhandled exception of customer = event["customer"] is the error channel
of Except, and on success the handler returns the mapping with the
probability and the thresholded boolean prediction >= 0.5. -/
def lambda_handler (p : Pipeline) (event : PyVal) : Except PyErr PyVal :=
  match getItem event ("customer") with
  | Except.error e => Except.error e
  | Except.ok customer =>
    let prediction := predict_single p customer
    Except.ok (PyVal.dict [(("churn_probability"), PyVal.float prediction),
                           (("churn"), PyVal.bool (decide (prediction ≥ 0.5)))])

/-- A concrete pipeline used by witnesses: probabilities 3/10 and 7/10 for
every one-row batch. -/
def pipe0 : Pipeline := ⟨fun _ => [[3/10, 7/10]]⟩

end Sklearn

namespace Homework

/-- C1: for the events \x7b\x7d, \x7b"url": ""\x7d and \x7b"url": None\x7d the
image handler returns exactly the mapping with statusCode 400 and the JSON
body saying url is required. -/
theorem image_handler_missing_url_returns_400 (env : ImgEnv) :
    (lambda_handler env (PyVal.dict [])).1
      = PyVal.dict [(("statusCode"), PyVal.int 400),
                    (("body"), PyVal.str ("\x7b\"error\": \"url is required\"\x7d"))]
  ∧ (lambda_handler env (PyVal.dict [(("url"), PyVal.str (""))])).1
      = PyVal.dict [(("statusCode"), PyVal.int 400),
                    (("body"), PyVal.str ("\x7b\"error\": \"url is required\"\x7d"))]
  ∧ (lambda_handler env (PyVal.dict [(("url"), PyVal.none)])).1
      = PyVal.dict [(("statusCode"), PyVal.int 400),
                    (("body"), PyVal.str ("\x7b\"error\": \"url is required\"\x7d"))] :=
  ⟨rfl, rfl, rfl⟩

/-- C3: the preprocessed tensor has shape (1, 3, 200, 200) for every input
image, whatever its original dimensions or aspect ratio. -/
theorem prepare_image_shape (img : PILImage) :
    (prepare_image img TARGET_SIZE).shape = [1, 3, 200, 200] := rfl

/-- C5: for a solid-color input image with channel values color in [0, 255],
every entry of the preprocessed tensor at channel c equals
(color c / 255 - mean c) / std c, at every pixel position. -/
theorem prepare_image_solid_color (w h : ℕ) (color : ℕ → ℕ)
    (hcolor : ∀ ch, color ch ≤ 255) (c y x : ℕ) (hc : c < 3) :
    (prepare_image ⟨w, h, fun _ _ ch => color ch⟩ TARGET_SIZE).entry [0, c, y, x]
      = (((color c : ℕ) : ℚ) / 255 - IMAGENET_MEAN.getD c 0) / IMAGENET_STD.getD c 0 := rfl

/-- Witness for C5: a 5 by 7 solid gray image, channel 1, pixel (2, 3). -/
theorem prepare_image_solid_color_witness :
    (prepare_image ⟨5, 7, fun _ _ _ => 100⟩ TARGET_SIZE).entry [0, 1, 2, 3]
      = (((100 : ℕ) : ℚ) / 255 - IMAGENET_MEAN.getD 1 0) / IMAGENET_STD.getD 1 0 :=
  prepare_image_solid_color 5 7 (fun _ => 100) (fun _ => by norm_num) 1 2 3 (by norm_num)

/-- C6 counterexample: in the trace of predict at a concrete url and
environment, the model load does not come after the batch step of
preprocessing; it is the very first thing predict does. -/
theorem predict_loads_model_before_preprocessing :
    ¬ List.indexOf Ev.batch (predict env0 (PyVal.str ("http://x/img.png"))).2
        < List.indexOf (Ev.loadModel MODEL_PATH) (predict env0 (PyVal.str ("http://x/img.png"))).2 := by
  decide

/-- C6 amended: in the success path the model is loaded first, before the
image is fetched, decoded, resized, converted to float, transposed, normalized
and batched; it is the model run (the inference call), not the model load,
that follows those steps. -/
theorem predict_event_order (env : ImgEnv) (url : PyVal) :
    List.indexOf (Ev.loadModel MODEL_PATH) (predict env url).2
        < List.indexOf Ev.fetchUrl (predict env url).2
  ∧ List.indexOf Ev.fetchUrl (predict env url).2 < List.indexOf Ev.decode (predict env url).2
  ∧ List.indexOf Ev.decode (predict env url).2 < List.indexOf Ev.resize (predict env url).2
  ∧ List.indexOf Ev.resize (predict env url).2 < List.indexOf Ev.toFloat (predict env url).2
  ∧ List.indexOf Ev.toFloat (predict env url).2 < List.indexOf Ev.transpose (predict env url).2
  ∧ List.indexOf Ev.transpose (predict env url).2 < List.indexOf Ev.normalize (predict env url).2
  ∧ List.indexOf Ev.normalize (predict env url).2 < List.indexOf Ev.batch (predict env url).2
  ∧ List.indexOf Ev.batch (predict env url).2 < List.indexOf Ev.run (predict env url).2 := by
  have h : (predict env url).2 = predict_events := rfl
  rw [h]
  decide

/-- C7: when the event has no truthy url value the handler returns the 400
response and its event trace is empty, so the model is neither loaded nor run
in that execution. -/
theorem handler_no_model_on_missing_url (env : ImgEnv) (event : PyVal)
    (h : (eventUrl event).truthy = false) :
    (lambda_handler env event).1
      = PyVal.dict [(("statusCode"), PyVal.int 400),
                    (("body"), PyVal.str ("\x7b\"error\": \"url is required\"\x7d"))]
  ∧ (Ev.loadModel MODEL_PATH) ∉ (lambda_handler env event).2
  ∧ Ev.run ∉ (lambda_handler env event).2 := by
  simp [lambda_handler, h]

/-- Witness for C7: the empty event against the concrete environment. -/
theorem handler_no_model_on_missing_url_witness :
    (lambda_handler env0 (PyVal.dict [])).1
      = PyVal.dict [(("statusCode"), PyVal.int 400),
                    (("body"), PyVal.str ("\x7b\"error\": \"url is required\"\x7d"))]
  ∧ (Ev.loadModel MODEL_PATH) ∉ (lambda_handler env0 (PyVal.dict [])).2
  ∧ Ev.run ∉ (lambda_handler env0 (PyVal.dict [])).2 :=
  handler_no_model_on_missing_url env0 (PyVal.dict []) rfl

/-- C8: with the fetched pixel content and the model output fixed, two
invocations of predict produce the same preprocessed tensor and the same
prediction; nothing else (no state between calls) enters the result. -/
theorem predict_deterministic (envA envB : ImgEnv) (u1 u2 : PyVal)
    (himg : envA.fetch u1 = envB.fetch u2)
    (hmodel : envA.run_model = envB.run_model) :
    prepare_image (envA.fetch u1) TARGET_SIZE = prepare_image (envB.fetch u2) TARGET_SIZE
  ∧ (predict envA u1).1 = (predict envB u2).1 := by
  constructor
  · rw [himg]
  · simp only [predict, himg, hmodel]

/-- Witness for C8: two environments that differ in their float formatting but
fetch the same content and run the same model, at two urls. -/
theorem predict_deterministic_witness :
    prepare_image (env0.fetch (PyVal.str ("http://a"))) TARGET_SIZE
      = prepare_image (env1.fetch (PyVal.str ("http://b"))) TARGET_SIZE
  ∧ (predict env0 (PyVal.str ("http://a"))).1 = (predict env1 (PyVal.str ("http://b"))).1 :=
  predict_deterministic env0 env1 (PyVal.str ("http://a")) (PyVal.str ("http://b")) rfl rfl

/-- C10: an event that is not a dict at all, and a dict event whose url value
is falsy of any kind, both receive the exact 400 response value rather than an
exception (the embedding of the handler is total on PyVal). -/
theorem handler_nondict_or_falsy_url_returns_400 (env : ImgEnv) :
    (∀ event : PyVal, (∀ d, event ≠ PyVal.dict d) →
      (lambda_handler env event).1
        = PyVal.dict [(("statusCode"), PyVal.int 400),
                      (("body"), PyVal.str ("\x7b\"error\": \"url is required\"\x7d"))])
  ∧ (∀ d : List (String × PyVal), (eventUrl (PyVal.dict d)).truthy = false →
      (lambda_handler env (PyVal.dict d)).1
        = PyVal.dict [(("statusCode"), PyVal.int 400),
                      (("body"), PyVal.str ("\x7b\"error\": \"url is required\"\x7d"))]) := by
  constructor
  · intro event hnd
    cases event with
    | dict d => exact absurd rfl (hnd d)
    | none => rfl
    | str s => rfl
    | int n => rfl
    | bool b => rfl
    | float q => rfl
    | list l => rfl
  · intro d h
    simp [lambda_handler, h]

/-- Witness for C10: a list event, and a dict whose url is the falsy number 0. -/
theorem handler_nondict_or_falsy_url_returns_400_witness :
    (lambda_handler env0 (PyVal.list [PyVal.int 1])).1
      = PyVal.dict [(("statusCode"), PyVal.int 400),
                    (("body"), PyVal.str ("\x7b\"error\": \"url is required\"\x7d"))]
  ∧ (lambda_handler env0 (PyVal.dict [(("url"), PyVal.int 0)])).1
      = PyVal.dict [(("statusCode"), PyVal.int 400),
                    (("body"), PyVal.str ("\x7b\"error\": \"url is required\"\x7d"))] :=
  ⟨(handler_nondict_or_falsy_url_returns_400 env0).1 (PyVal.list [PyVal.int 1])
      (fun _ h => PyVal.noConfusion h),
   (handler_nondict_or_falsy_url_returns_400 env0).2 [(("url"), PyVal.int 0)] rfl⟩

end Homework

namespace Sklearn

/-- C4: predict_single hands the single customer record to the pipeline's
probability prediction as the one-row batch [customer] and selects the
positive-class probability, row 0 and class index 1 of the result. -/
theorem predict_single_one_row_batch_positive_class (p : Pipeline)
    (d : List (String × PyVal)) :
    predict_single p (PyVal.dict d)
      = ((p.predict_proba_batch [PyVal.dict d]).getD 0 []).getD 1 0 := rfl

/-- Every probability the wrapped predict_proba can return comes from some
batch result of the pipeline, so a pipeline whose batch outputs lie in [0, 1]
gives a predict_single value in [0, 1] (a missing row or column would yield
the default 0, also in range). -/
theorem predict_single_mem_unit_interval (p : Pipeline) (cust : PyVal)
    (hp : ∀ xs row q, row ∈ p.predict_proba_batch xs → q ∈ row → 0 ≤ q ∧ q ≤ 1) :
    0 ≤ predict_single p cust ∧ predict_single p cust ≤ 1 := by
  obtain ⟨ys, hys⟩ : ∃ ys, p.predict_proba cust = p.predict_proba_batch ys := by
    cases cust <;> exact ⟨_, rfl⟩
  unfold predict_single
  rw [hys]
  rcases hM : p.predict_proba_batch ys with _ | ⟨row, rest⟩
  · exact ⟨le_refl 0, zero_le_one⟩
  · have hrow : row ∈ p.predict_proba_batch ys := by
      rw [hM]; exact List.mem_cons_self _ _
    rcases row with _ | ⟨a, tl⟩
    · exact ⟨le_refl 0, zero_le_one⟩
    · rcases tl with _ | ⟨b, tl2⟩
      · exact ⟨le_refl 0, zero_le_one⟩
      · have hb : b ∈ a :: b :: tl2 := List.mem_cons_of_mem _ (List.mem_cons_self _ _)
        exact hp ys (a :: b :: tl2) b hrow hb

end Sklearn

/-- C2: for an event carrying a customer record and the (external) pipeline
contract that predicted probabilities lie in [0, 1], the churn handler returns
the mapping whose churn_probability is in [0, 1] and whose churn boolean is
true exactly when churn_probability is at least 0.5. -/
theorem churn_handler_threshold_and_range (p : Sklearn.Pipeline) (event cust : PyVal)
    (hcust : Sklearn.getItem event ("customer") = Except.ok cust)
    (hp : ∀ xs row q, row ∈ p.predict_proba_batch xs → q ∈ row → 0 ≤ q ∧ q ≤ 1) :
    Sklearn.lambda_handler p event
      = Except.ok (PyVal.dict
          [(("churn_probability"), PyVal.float (Sklearn.predict_single p cust)),
           (("churn"), PyVal.bool (decide (Sklearn.predict_single p cust ≥ 0.5)))])
  ∧ (0 ≤ Sklearn.predict_single p cust ∧ Sklearn.predict_single p cust ≤ 1)
  ∧ (PyVal.bool (decide (Sklearn.predict_single p cust ≥ 0.5)) = PyVal.bool true
       ↔ Sklearn.predict_single p cust ≥ 0.5) := by
  refine ⟨?_, Sklearn.predict_single_mem_unit_interval p cust hp, ?_⟩
  · unfold Sklearn.lambda_handler
    rw [hcust]
  · constructor
    · intro hbool
      have : decide (Sklearn.predict_single p cust ≥ 0.5) = true := by
        cases hdec : decide (Sklearn.predict_single p cust ≥ 0.5) with
        | false => rw [hdec] at hbool; exact absurd hbool (by simp)
        | true => rfl
      exact of_decide_eq_true this
    · intro hge
      rw [decide_eq_true hge]

/-- Witness for C2: the concrete pipeline pipe0 (probabilities 3/10 and 7/10)
and the event whose customer record is the empty mapping. -/
theorem churn_handler_threshold_and_range_witness :
    Sklearn.lambda_handler Sklearn.pipe0 (PyVal.dict [(("customer"), PyVal.dict [])])
      = Except.ok (PyVal.dict
          [(("churn_probability"),
            PyVal.float (Sklearn.predict_single Sklearn.pipe0 (PyVal.dict []))),
           (("churn"),
            PyVal.bool (decide (Sklearn.predict_single Sklearn.pipe0 (PyVal.dict []) ≥ 0.5)))])
  ∧ (0 ≤ Sklearn.predict_single Sklearn.pipe0 (PyVal.dict [])
       ∧ Sklearn.predict_single Sklearn.pipe0 (PyVal.dict []) ≤ 1)
  ∧ (PyVal.bool (decide (Sklearn.predict_single Sklearn.pipe0 (PyVal.dict []) ≥ 0.5))
        = PyVal.bool true
       ↔ Sklearn.predict_single Sklearn.pipe0 (PyVal.dict []) ≥ 0.5) :=
  churn_handler_threshold_and_range Sklearn.pipe0
    (PyVal.dict [(("customer"), PyVal.dict [])]) (PyVal.dict []) rfl
    (fun xs row q hrow hq => by
      have hrow2 : row = [3/10, 7/10] := by simpa [Sklearn.pipe0] using hrow
      rw [hrow2] at hq
      have hq2 : q = 3/10 ∨ q = 7/10 := by simpa using hq
      rcases hq2 with rfl | rfl
      · constructor <;> norm_num
      · constructor <;> norm_num)

/-- C9: an event that is a mapping without a customer key makes the churn
handler raise KeyError for that key; no response mapping is produced, the
result is the error alternative. -/
theorem churn_handler_missing_customer_raises (p : Sklearn.Pipeline)
    (d : List (String × PyVal)) (h : d.lookup ("customer") = Option.none) :
    Sklearn.lambda_handler p (PyVal.dict d)
      = Except.error (Sklearn.PyErr.keyError ("customer")) := by
  have hg : Sklearn.getItem (PyVal.dict d) ("customer")
      = Except.error (Sklearn.PyErr.keyError ("customer")) := by
    show (match d.lookup ("customer") with
          | some x => Except.ok x
          | Option.none => Except.error (Sklearn.PyErr.keyError ("customer")))
        = Except.error (Sklearn.PyErr.keyError ("customer"))
    rw [h]
  unfold Sklearn.lambda_handler
  rw [hg]

/-- Witness for C9: the empty mapping as the event. -/
theorem churn_handler_missing_customer_raises_witness :
    Sklearn.lambda_handler Sklearn.pipe0 (PyVal.dict [])
      = Except.error (Sklearn.PyErr.keyError ("customer")) :=
  churn_handler_missing_customer_raises Sklearn.pipe0 [] rfl
